import Mathlib

/-!
Shallow embedding of the session lifecycle and fan-out engine of
ws-ssh-proxy (src/server.ts, src/types.ts).

Pure data is modelled directly; the stateful registry is threaded as an
explicit `Engine` value; side effects (WebSocket sends/closes, shell
writes, SSH teardown, notification publications) are reified as a list of
`Effect` values returned by each operation.  JavaScript numbers that hold
wall-clock milliseconds or PTY dimensions are modelled as `Int`; the
`Number.isFinite` guards of the source are modelled by `Option Int`
(`none` = absent or non-finite).  The asynchronous SSH connect and shell
open of `createConnection` are modelled by outcome oracles
(`SshOutcome`, `ShellOutcome`) standing for the external ssh2 library.
-/

namespace WsSshProxy

/-- Session states, from `ConnectionState` in src/types.ts. -/
inductive ConnState
  | connecting
  | ready
  | closed
  | error
deriving DecidableEq

/-- An attached WebSocket peer: identity plus whether its transport is in
the OPEN ready-state (`ws.readyState === WebSocket.OPEN`). -/
structure Peer where
  pid : Nat
  isOpen : Bool
deriving DecidableEq

/-- The `meta` record of a managed connection: host, port, username
(src/types.ts lines 23-27).  It has no password field. -/
structure Meta where
  host : String
  port : Int
  username : String
deriving DecidableEq

/-- A managed connection record (src/types.ts `ManagedConnection`).  The
`ssh` handle is implicit (owned for the record's lifetime); the optional
`shell` handle is modelled by the flag `hasShell`, which the source sets
exactly when `conn.shell = stream` runs and never clears. -/
structure Conn where
  id : String
  state : ConnState
  createdAt : Int
  lastActivityAt : Int
  hasShell : Bool
  clients : List Peer
  cols : Int
  rows : Int
  idleTimeoutMs : Int
  meta : Meta
deriving DecidableEq

/-- Aggregate state counts for a notification summary (src/types.ts). -/
structure Counts where
  total : Nat
  ready : Nat
  connecting : Nat
  error : Nat
  closed : Nat
deriving DecidableEq

/-- Notification reasons (src/types.ts `ConnectionsSseSummary.reason`). -/
inductive NotifyReason
  | created
  | deleted
  | state
  | wsAttached
  | wsDetached
  | resize
  | idleTimeout
deriving DecidableEq

/-- A published notification summary (src/types.ts
`ConnectionsSseSummary`). -/
structure Summary where
  version : Nat
  ts : Int
  reason : NotifyReason
  changedIds : List String
  counts : Counts
deriving DecidableEq

/-- JSON values, used to model the exact shape of HTTP response bodies,
snapshot views and control payloads the server emits. -/
inductive JVal
  | jnull
  | jbool (b : Bool)
  | jnum (n : Int)
  | jstr (s : String)
  | jarr (xs : List JVal)
  | jobj (fields : List (String × JVal))

/-- Field lookup in a JSON object. -/
def jLookup (j : JVal) (k : String) : Option JVal :=
  match j with
  | .jobj fields => fields.lookup k
  | _ => none

/-- Field names of a JSON object. -/
def jKeys (j : JVal) : List String :=
  match j with
  | .jobj fields => fields.map Prod.fst
  | _ => []

/-- Observable side effects of the engine, reified. -/
inductive Effect
  | wsClose (pid : Nat) (code : Nat) (why : String)
  | wsSend (pid : Nat) (payload : JVal)
  | wsSendBytes (pid : Nat) (data : String)
  | shellWrite (data : String)
  | setWindow (rows cols : Int)
  | shellClose
  | sshEnd
  | notify (s : Summary)

/-- Whether an effect is a notification publication. -/
def Effect.isNotify : Effect → Bool
  | .notify _ => true
  | _ => false

/-- Server configuration derived from the environment (src/server.ts
lines 10-14). -/
structure Config where
  basePath : String
  defaultIdleTimeoutMs : Int
  maxConnections : Nat
deriving DecidableEq

/-- The engine state: the registry map `connections` (modelled as an
insertion-ordered list of records with unique ids) and the global
notification version counter (src/server.ts lines 31-32). -/
structure Engine where
  connections : List Conn
  version : Nat
deriving DecidableEq

/-- Mutation of a shared connection record, as seen through the registry
map: every entry aliasing the same id is the same mutated object. -/
def updateConn (eng : Engine) (c : Conn) : Engine :=
  { eng with connections := eng.connections.map (fun x => if x.id = c.id then c else x) }

/-- Registry deletion, `connections.delete(id)`. -/
def removeConn (eng : Engine) (id : String) : Engine :=
  { eng with connections := eng.connections.filter (fun x => x.id ≠ id) }

/-- Registry lookup, `connections.get(id)`. -/
def lookupConn (eng : Engine) (id : String) : Option Conn :=
  eng.connections.find? (fun x => x.id = id)

/-- The `touch` helper (src/server.ts line 71): refresh activity. -/
def touch (t : Int) (c : Conn) : Conn := { c with lastActivityAt := t }

/-- One step of `computeCounts`: bump total, then the bucket selected by
the if/else chain of src/server.ts lines 77-80 (anything that is not
ready/connecting/error counts as closed). -/
def countsStep (acc : Counts) (c : Conn) : Counts :=
  let acc := { acc with total := acc.total + 1 }
  if c.state = ConnState.ready then { acc with ready := acc.ready + 1 }
  else if c.state = ConnState.connecting then { acc with connecting := acc.connecting + 1 }
  else if c.state = ConnState.error then { acc with error := acc.error + 1 }
  else { acc with closed := acc.closed + 1 }

/-- The `computeCounts` scan (src/server.ts lines 73-83). -/
def computeCounts (l : List Conn) : Counts :=
  l.foldl countsStep { total := 0, ready := 0, connecting := 0, error := 0, closed := 0 }

/-- The summary built by `bumpAndNotify` (src/server.ts line 86): counts
are computed from the registry at publish time. -/
def publishSummary (t : Int) (reason : NotifyReason) (ids : List String) (eng : Engine) : Summary :=
  { version := eng.version + 1, ts := t, reason := reason, changedIds := ids,
    counts := computeCounts eng.connections }

/-- `bumpAndNotify` (src/server.ts lines 84-88): increment the global
version and publish one summary to all subscribers. -/
def bumpAndNotify (t : Int) (reason : NotifyReason) (ids : List String) (eng : Engine) :
    Engine × Effect :=
  ({ eng with version := eng.version + 1 }, Effect.notify (publishSummary t reason ids eng))

/-- String form of a state, as serialized into JSON. -/
def stateToString : ConnState → String
  | ConnState.connecting => "connecting"
  | ConnState.ready => "ready"
  | ConnState.closed => "closed"
  | ConnState.error => "error"

/-- JSON form of the `meta` record. -/
def metaJson (m : Meta) : JVal :=
  JVal.jobj [("host", JVal.jstr m.host), ("port", JVal.jnum m.port),
             ("username", JVal.jstr m.username)]

/-- The per-session view of `connectionsSnapshot` (src/server.ts lines
94-102): exactly the listed fields, nothing else. -/
def connViewJson (c : Conn) : JVal :=
  JVal.jobj
    [("id", JVal.jstr c.id),
     ("state", JVal.jstr (stateToString c.state)),
     ("createdAt", JVal.jnum c.createdAt),
     ("lastActivityAt", JVal.jnum c.lastActivityAt),
     ("idleTimeoutMs", JVal.jnum c.idleTimeoutMs),
     ("attachedClients", JVal.jnum (Int.ofNat (c.clients.filter (fun w => w.isOpen)).length)),
     ("meta", metaJson c.meta)]

/-- `connectionsSnapshot` (src/server.ts lines 90-104). -/
def connectionsSnapshot (eng : Engine) (t : Int) : JVal :=
  JVal.jobj
    [("version", JVal.jnum (Int.ofNat eng.version)),
     ("ts", JVal.jnum t),
     ("connections", JVal.jarr (eng.connections.map connViewJson))]

/-- `applyResize` (src/server.ts lines 149-154): store the dimensions,
invoke the PTY window change when a shell handle is present, publish one
resize notification.  Note the source does not call `touch` here. -/
def applyResize (t : Int) (eng : Engine) (c : Conn) (cols rows : Int) :
    Engine × Conn × List Effect :=
  let c := { c with cols := cols, rows := rows }
  let winFx := if c.hasShell then [Effect.setWindow rows cols] else []
  let eng := updateConn eng c
  let (eng, nfy) := bumpAndNotify t NotifyReason.resize [c.id] eng
  (eng, c, winFx ++ [nfy])

/-- Control messages (src/types.ts `ControlMessage`), at the point after
JSON decoding.  `Option` on the resize dimensions models the
`Number.isFinite` guards; `Option` on stdin data models `data ?? ""`. -/
inductive CtrlMsg
  | resize (cols rows : Option Int)
  | stdin (data : Option String)
  | ping
  | detach
deriving DecidableEq

/-- An inbound peer frame, abstracting `tryParseControlMessage`
(src/server.ts lines 136-147): `ctrl m` is a trimmed text frame that is a
JSON object with a string `type` field; `raw d` is any other payload
(binary, non-JSON text, or JSON without a string `type`), which the
source forwards verbatim to the shell. -/
inductive PeerFrame
  | ctrl (m : CtrlMsg)
  | raw (data : String)
deriving DecidableEq

/-- The per-message handler installed by `attachWebSocket`
(src/server.ts lines 162-173).  Activity is touched first; in read-only
mode the handler returns immediately afterwards, before any control
parsing or dispatch. -/
def onPeerMessage (t : Int) (eng : Engine) (c : Conn) (w : Peer) (readOnly : Bool)
    (f : PeerFrame) : Engine × Conn × List Effect :=
  let c := touch t c
  let eng := updateConn eng c
  if readOnly then (eng, c, [])
  else
    match f with
    | PeerFrame.ctrl (CtrlMsg.resize (some cols) (some rows)) => applyResize t eng c cols rows
    | PeerFrame.ctrl (CtrlMsg.resize _ _) => (eng, c, [])
    | PeerFrame.ctrl (CtrlMsg.stdin d) => (eng, c, [Effect.shellWrite (d.getD "")])
    | PeerFrame.ctrl CtrlMsg.ping =>
        (eng, c, [Effect.wsSend w.pid (JVal.jobj [("type", JVal.jstr "pong")])])
    | PeerFrame.ctrl CtrlMsg.detach => (eng, c, [Effect.wsClose w.pid 1000 "Detached"])
    | PeerFrame.raw d => (eng, c, [Effect.shellWrite d])

/-- `attachWebSocket` admission and attach step (src/server.ts lines
156-161): reject with 1011 unless state is ready with a shell; otherwise
add the peer, touch activity, publish ws-attached, send the banner. -/
def attachWebSocket (t : Int) (eng : Engine) (c : Conn) (w : Peer) :
    Engine × Conn × List Effect :=
  if c.state ≠ ConnState.ready ∨ c.hasShell = false then
    (eng, c, [Effect.wsClose w.pid 1011 "Connection not ready"])
  else
    let c := { c with clients := c.clients ++ [w] }
    let c := touch t c
    let eng := updateConn eng c
    let (eng, nfy) := bumpAndNotify t NotifyReason.wsAttached [c.id] eng
    (eng, c, [nfy, Effect.wsSendBytes w.pid "\r\n[attached]\r\n"])

/-- The peer close/error cleanup handler (src/server.ts line 174). -/
def peerCleanup (t : Int) (eng : Engine) (c : Conn) (w : Peer) :
    Engine × Conn × List Effect :=
  let c := { c with clients := c.clients.filter (fun x => x ≠ w) }
  let c := touch t c
  let eng := updateConn eng c
  let (eng, nfy) := bumpAndNotify t NotifyReason.wsDetached [c.id] eng
  (eng, c, [nfy])

/-- The shell data fan-out handler (src/server.ts line 212): touch, then
send the chunk to every peer whose transport is OPEN. -/
def onShellData (t : Int) (eng : Engine) (c : Conn) (chunk : String) :
    Engine × Conn × List Effect :=
  let c := touch t c
  let eng := updateConn eng c
  (eng, c, (c.clients.filter (fun w => w.isOpen)).map (fun w => Effect.wsSendBytes w.pid chunk))

/-- `terminateConnection` (src/server.ts lines 179-187): mark closed,
close every peer with 1001, clear the peer set, close the shell handle
when present, end the SSH transport, delete from the registry, publish
one notification. -/
def terminateConnection (t : Int) (eng : Engine) (c : Conn) (why : String)
    (reason : NotifyReason) : Engine × Conn × List Effect :=
  let c := { c with state := ConnState.closed }
  let closeFx := c.clients.map (fun w => Effect.wsClose w.pid 1001 why)
  let c := { c with clients := [] }
  let shellFx := if c.hasShell then [Effect.shellClose] else []
  let eng := updateConn eng c
  let eng := removeConn eng c.id
  let (eng, nfy) := bumpAndNotify t reason [c.id] eng
  (eng, c, closeFx ++ shellFx ++ [Effect.sshEnd, nfy])

/-- The common shape of the three transport/shell event handlers
registered in `createConnection` (src/server.ts lines 205, 213, 214):
set the state, close every peer with 1011, clear the peer set, publish
one state notification.  None of them closes the shell handle, ends the
SSH transport, or removes the session from the registry. -/
def onTransportEvent (t : Int) (eng : Engine) (c : Conn) (st : ConnState) (why : String) :
    Engine × Conn × List Effect :=
  let c := { c with state := st }
  let closeFx := c.clients.map (fun w => Effect.wsClose w.pid 1011 why)
  let c := { c with clients := [] }
  let eng := updateConn eng c
  let (eng, nfy) := bumpAndNotify t NotifyReason.state [c.id] eng
  (eng, c, closeFx ++ [nfy])

/-- The `ssh.on close` handler (src/server.ts line 205). -/
def onSshClose (t : Int) (eng : Engine) (c : Conn) : Engine × Conn × List Effect :=
  onTransportEvent t eng c ConnState.closed "SSH closed"

/-- The `stream.on close` handler (src/server.ts line 213). -/
def onShellClose (t : Int) (eng : Engine) (c : Conn) : Engine × Conn × List Effect :=
  onTransportEvent t eng c ConnState.closed "Shell closed"

/-- The `stream.on error` handler (src/server.ts line 214). -/
def onShellError (t : Int) (eng : Engine) (c : Conn) : Engine × Conn × List Effect :=
  onTransportEvent t eng c ConnState.error "Shell error"

/-- Outcome of the SSH transport establishment awaited by
`createConnection` (src/server.ts lines 202-207). -/
inductive SshOutcome
  | ready
  | err (msg : String)
deriving DecidableEq

/-- Outcome of the `ssh.shell` PTY request (src/server.ts lines 208-217). -/
inductive ShellOutcome
  | opened
  | err (msg : String)
deriving DecidableEq

/-- Parameters of `createConnection` (src/server.ts line 189). -/
structure CreateParams where
  host : String
  port : Option Int
  username : String
  password : String
  cols : Option Int
  rows : Option Int
  idleTimeoutMs : Option Int
deriving DecidableEq

/-- The connection record built by `createConnection` (src/server.ts
lines 193-199).  The password is passed on to `ssh.connect` but never
stored in the record. -/
def mkConn (cfg : Config) (id : String) (t : Int) (p : CreateParams) : Conn :=
  { id := id, state := ConnState.connecting, createdAt := t, lastActivityAt := t,
    hasShell := false, clients := [],
    cols := p.cols.getD 120, rows := p.rows.getD 30,
    idleTimeoutMs := p.idleTimeoutMs.getD cfg.defaultIdleTimeoutMs,
    meta := { host := p.host, port := p.port.getD 22, username := p.username } }

/-- `createConnection` (src/server.ts lines 189-219): capacity check,
record creation and insertion, created notification, then the awaited
SSH connect and shell open.  A failure of either await rejects the
promise (returned here as `Except.error`); the source performs no state
change and no registry removal on those paths.  On success the shell is
stored, state becomes ready, activity is touched, and one state
notification is published. -/
def createConnection (cfg : Config) (eng : Engine) (id : String) (t : Int) (p : CreateParams)
    (sshR : SshOutcome) (shellR : ShellOutcome) :
    Engine × List Effect × Except String Conn :=
  if eng.connections.length ≥ cfg.maxConnections then
    (eng, [], Except.error "MAX_CONNECTIONS exceeded")
  else
    let c := mkConn cfg id t p
    let eng := { eng with connections := eng.connections ++ [c] }
    let (eng, nfy1) := bumpAndNotify t NotifyReason.created [id] eng
    match sshR with
    | SshOutcome.err m => (eng, [nfy1], Except.error m)
    | SshOutcome.ready =>
      match shellR with
      | ShellOutcome.err m => (eng, [nfy1], Except.error m)
      | ShellOutcome.opened =>
        let c := { c with hasShell := true, state := ConnState.ready, lastActivityAt := t }
        let eng := updateConn eng c
        let (eng, nfy2) := bumpAndNotify t NotifyReason.state [id] eng
        (eng, [nfy1, nfy2], Except.ok c)

/-- An HTTP response: status code and JSON body. -/
structure HttpResponse where
  status : Nat
  body : JVal

/-- The 201 body of POST /connections (src/server.ts line 256). -/
def createdResponseJson (cfg : Config) (c : Conn) : JVal :=
  JVal.jobj
    [("id", JVal.jstr c.id),
     ("state", JVal.jstr (stateToString c.state)),
     ("createdAt", JVal.jnum c.createdAt),
     ("lastActivityAt", JVal.jnum c.lastActivityAt),
     ("idleTimeoutMs", JVal.jnum c.idleTimeoutMs),
     ("wsPath", JVal.jstr (cfg.basePath ++ "/ws/" ++ c.id)),
     ("meta", metaJson c.meta)]

/-- The request body of POST /connections; `none` models an absent (or
falsy-coerced) field. -/
structure CreateBody where
  host : Option String
  port : Option Int
  username : Option String
  password : Option String
  cols : Option Int
  rows : Option Int
  idleTimeoutMs : Option Int
deriving DecidableEq

/-- The POST /connections route (src/server.ts lines 252-258) together
with the surrounding catch-all handler (lines 285-287): a missing or
empty required field yields 400; a rejection thrown by
`createConnection` is caught by the generic handler and surfaces as 500
with the message in `detail`. -/
def handleCreate (cfg : Config) (eng : Engine) (id : String) (t : Int) (body : CreateBody)
    (sshR : SshOutcome) (shellR : ShellOutcome) :
    Engine × List Effect × HttpResponse :=
  match body.host, body.username, body.password with
  | some h, some u, some pw =>
    if h = "" ∨ u = "" ∨ pw = "" then
      (eng, [], { status := 400,
                  body := JVal.jobj [("error", JVal.jstr "host, username, password are required")] })
    else
      let p : CreateParams :=
        { host := h, port := body.port, username := u, password := pw,
          cols := body.cols, rows := body.rows, idleTimeoutMs := body.idleTimeoutMs }
      match createConnection cfg eng id t p sshR shellR with
      | (eng2, fx, Except.ok c) =>
        (eng2, fx, { status := 201, body := createdResponseJson cfg c })
      | (eng2, fx, Except.error m) =>
        (eng2, fx, { status := 500,
                     body := JVal.jobj [("error", JVal.jstr "Internal Server Error"),
                                        ("detail", JVal.jstr m)] })
  | _, _, _ =>
    (eng, [], { status := 400,
                body := JVal.jobj [("error", JVal.jstr "host, username, password are required")] })

/-- The DELETE /connections/id route (src/server.ts lines 262-269). -/
def handleDelete (t : Int) (eng : Engine) (id : String) :
    Engine × List Effect × HttpResponse :=
  match lookupConn eng id with
  | none => (eng, [], { status := 404, body := JVal.jobj [("error", JVal.jstr "Not Found")] })
  | some c =>
    let (eng2, _, fx) := terminateConnection t eng c "Deleted" NotifyReason.deleted
    (eng2, fx, { status := 200, body := JVal.jobj [("ok", JVal.jbool true)] })

/-- The POST /connections/id/resize route (src/server.ts lines 271-282).
The gate is `!conn || !conn.shell`: an unknown id or an absent shell
handle yields 404; non-finite dimensions yield 400; otherwise
`applyResize` runs.  The session state is not consulted. -/
def handleResizeHttp (eng : Engine) (t : Int) (id : String) (cols rows : Option Int) :
    Engine × List Effect × HttpResponse :=
  match lookupConn eng id with
  | none => (eng, [], { status := 404, body := JVal.jobj [("error", JVal.jstr "Not Found")] })
  | some c =>
    if c.hasShell = false then
      (eng, [], { status := 404, body := JVal.jobj [("error", JVal.jstr "Not Found")] })
    else
      match cols, rows with
      | some cl, some rw =>
        let (eng2, _, fx) := applyResize t eng c cl rw
        (eng2, fx, { status := 200,
                     body := JVal.jobj [("ok", JVal.jbool true), ("cols", JVal.jnum cl),
                                        ("rows", JVal.jnum rw)] })
      | _, _ =>
        (eng, [], { status := 400,
                    body := JVal.jobj [("error", JVal.jstr "cols and rows must be numbers")] })

/-- The reaping condition of the idle sweeper (src/server.ts lines
306-308): no peer transport is OPEN and the idle age strictly exceeds
the session's budget. -/
def reapable (t : Int) (c : Conn) : Bool :=
  (!(c.clients.any (fun w => w.isOpen))) && decide (t - c.lastActivityAt > c.idleTimeoutMs)

/-- The termination reason string of the sweeper (src/server.ts line 309). -/
def idleWhy (c : Conn) : String :=
  "Idle timeout (" ++ toString c.idleTimeoutMs ++ "ms)"

/-- One iteration of the sweeper loop body (src/server.ts lines 305-311). -/
def sweepStep (t : Int) (acc : Engine × List Effect) (c : Conn) : Engine × List Effect :=
  if reapable t c then
    let (eng2, _, fx) := terminateConnection t acc.1 c (idleWhy c) NotifyReason.idleTimeout
    (eng2, acc.2 ++ fx)
  else acc

/-- One sweeper tick (src/server.ts lines 303-312): scan the sessions
present at tick time, terminating each reapable one. -/
def sweep (t : Int) (eng : Engine) : Engine × List Effect :=
  eng.connections.foldl (sweepStep t) (eng, [])

/-- The ids of the sessions a sweeper tick at time `t` reaps. -/
def reapedIds (t : Int) (l : List Conn) : List String :=
  (l.filter (reapable t)).map (fun c => c.id)

/-! Concrete fixtures used by witnesses and counterexamples. -/

/-- A peer whose transport is OPEN. -/
def pOpen : Peer := { pid := 1, isOpen := true }

/-- A peer whose transport is no longer OPEN. -/
def pShut : Peer := { pid := 2, isOpen := false }

/-- Sample meta record. -/
def mW : Meta := { host := "h", port := 22, username := "u" }

/-- A ready session with a shell and one open peer. -/
def cReady : Conn :=
  { id := "a", state := ConnState.ready, createdAt := 0, lastActivityAt := 5,
    hasShell := true, clients := [pOpen], cols := 120, rows := 30,
    idleTimeoutMs := 100, meta := mW }

/-- A session with no open peer and stale activity. -/
def cIdle : Conn := { cReady with id := "b", clients := [pShut], lastActivityAt := 0 }

/-- An engine holding only `cReady`. -/
def engW : Engine := { connections := [cReady], version := 3 }

/-- An engine holding the idle session and the active one. -/
def engS : Engine := { connections := [cIdle, cReady], version := 0 }

/-- An empty engine. -/
def eng0 : Engine := { connections := [], version := 0 }

/-- Default-like configuration. -/
def cfgW : Config := { basePath := "", defaultIdleTimeoutMs := 600000, maxConnections := 100 }

/-- Configuration whose capacity is already reached by `engW`. -/
def cfgW1 : Config := { basePath := "", defaultIdleTimeoutMs := 600000, maxConnections := 1 }

/-- Sample create parameters. -/
def pW : CreateParams :=
  { host := "h", port := none, username := "u", password := "p",
    cols := none, rows := none, idleTimeoutMs := none }

/-- Sample well-formed create request body. -/
def bodyW : CreateBody :=
  { host := some "h", port := none, username := some "u", password := some "p",
    cols := none, rows := none, idleTimeoutMs := none }

/-! Helper lemmas. -/

/-- Replacing the entries of a given id and then dropping that id is the
same as just dropping the id. -/
theorem filter_map_update (l : List Conn) (c : Conn) (i : String) (hc : c.id = i) :
    (l.map (fun x => if x.id = i then c else x)).filter (fun x => x.id ≠ i)
      = l.filter (fun x => x.id ≠ i) := by
  induction l with
  | nil => rfl
  | cons a l ih =>
    simp only [ne_eq, decide_not] at ih ⊢
    by_cases h : a.id = i
    · simp [h, hc, ih]
    · simp [h, ih]

/-- Replacing entries of a matching id preserves the id column. -/
theorem map_update_ids (l : List Conn) (c : Conn) :
    (l.map (fun x => if x.id = c.id then c else x)).map (fun x => x.id)
      = l.map (fun x => x.id) := by
  induction l with
  | nil => rfl
  | cons a l ih =>
    by_cases h : a.id = c.id
    · simp [h, ih]
    · simp [h, ih]

/-- The registry after `terminateConnection`: the session's id is gone,
everything else untouched. -/
theorem terminate_conns (t : Int) (e : Engine) (c : Conn) (why : String) (r : NotifyReason) :
    (terminateConnection t e c why r).1.connections
      = e.connections.filter (fun x => x.id ≠ c.id) := by
  simp only [terminateConnection, bumpAndNotify, removeConn, updateConn]
  exact filter_map_update e.connections _ c.id rfl

/-- The effect list of `terminateConnection`, structurally. -/
theorem terminate_fx_eq (t : Int) (e : Engine) (c : Conn) (why : String) (r : NotifyReason) :
    ∃ s : Summary, s.reason = r ∧ s.changedIds = [c.id] ∧
      (terminateConnection t e c why r).2.2
        = c.clients.map (fun w => Effect.wsClose w.pid 1001 why)
          ++ (if c.hasShell then [Effect.shellClose] else [])
          ++ [Effect.sshEnd, Effect.notify s] :=
  ⟨_, rfl, rfl, rfl⟩

/-- The counts scan keeps `total` equal to the sum of the four buckets. -/
theorem computeCounts_aux (l : List Conn) : ∀ acc : Counts,
    acc.total = acc.ready + acc.connecting + acc.error + acc.closed →
    (l.foldl countsStep acc).total
      = (l.foldl countsStep acc).ready + (l.foldl countsStep acc).connecting
        + (l.foldl countsStep acc).error + (l.foldl countsStep acc).closed := by
  induction l with
  | nil => intro acc h; exact h
  | cons a l ih =>
    intro acc h
    simp only [List.foldl_cons]
    apply ih
    cases ha : a.state <;> simp [countsStep, ha] <;> omega

/-! Claim theorems. -/

/-- C10: in every published notification summary, every registered
session is counted in exactly one state bucket (anything that is not
ready, connecting or error is counted as closed), so `counts.total`
always equals `ready + connecting + error + closed`. -/
theorem c10_counts_partition (t : Int) (r : NotifyReason) (ids : List String) (eng : Engine) :
    (bumpAndNotify t r ids eng).2 = Effect.notify (publishSummary t r ids eng)
    ∧ (publishSummary t r ids eng).counts.total
        = (publishSummary t r ids eng).counts.ready
          + (publishSummary t r ids eng).counts.connecting
          + (publishSummary t r ids eng).counts.error
          + (publishSummary t r ids eng).counts.closed := by
  refine ⟨rfl, ?_⟩
  exact computeCounts_aux eng.connections _ rfl

/-- C9: no observation point (connections snapshot, create response,
notification summaries) depends on the SSH password: two create runs
differing only in the password produce identical records, effects and
snapshots, and the serialized views hold only the listed fields, with
`meta` holding only host, port and username. -/
theorem c9_password_noninterference (cfg : Config) (eng : Engine) (id : String) (t : Int)
    (p : CreateParams) (pw : String) (sshR : SshOutcome) (shellR : ShellOutcome) (c : Conn) :
    mkConn cfg id t { p with password := pw } = mkConn cfg id t p
    ∧ createConnection cfg eng id t { p with password := pw } sshR shellR
        = createConnection cfg eng id t p sshR shellR
    ∧ connectionsSnapshot (createConnection cfg eng id t { p with password := pw } sshR shellR).1 t
        = connectionsSnapshot (createConnection cfg eng id t p sshR shellR).1 t
    ∧ jKeys (connViewJson c)
        = ["id", "state", "createdAt", "lastActivityAt", "idleTimeoutMs", "attachedClients",
           "meta"]
    ∧ jKeys (metaJson c.meta) = ["host", "port", "username"]
    ∧ jKeys (createdResponseJson cfg c)
        = ["id", "state", "createdAt", "lastActivityAt", "idleTimeoutMs", "wsPath", "meta"] :=
  ⟨rfl, rfl, rfl, rfl, rfl, rfl⟩

/-- C3 (amended): in read-only mode the message handler returns right
after touching activity, before any control parsing: a ping gets no pong
reply, a detach does not close the peer, and resize/stdin/raw passthrough
are equally suppressed.  In read-write mode ping is answered with a pong
and detach closes that peer with code 1000. -/
theorem c3_readonly_suppresses_all (t : Int) (eng : Engine) (c : Conn) (w : Peer)
    (f : PeerFrame) :
    onPeerMessage t eng c w true f = (updateConn eng (touch t c), touch t c, [])
    ∧ (onPeerMessage t eng c w false (PeerFrame.ctrl CtrlMsg.ping)).2.2
        = [Effect.wsSend w.pid (JVal.jobj [("type", JVal.jstr "pong")])]
    ∧ (onPeerMessage t eng c w false (PeerFrame.ctrl CtrlMsg.detach)).2.2
        = [Effect.wsClose w.pid 1000 "Detached"] :=
  ⟨rfl, rfl, rfl⟩

/-- C3 counterexample: a read-only peer that sends ping receives no pong,
and one that sends detach is not closed — the handler emits no effect at
all, refuting the claim that ping/detach remain allowed in read-only
mode. -/
theorem c3_cex_readonly_ping_detach :
    (onPeerMessage 7 engW cReady pOpen true (PeerFrame.ctrl CtrlMsg.ping)).2.2 = []
    ∧ (onPeerMessage 7 engW cReady pOpen true (PeerFrame.ctrl CtrlMsg.detach)).2.2 = [] :=
  ⟨rfl, rfl⟩

/-- C6 (amended): a resize stores the new dimensions in the session
record, but the snapshot per-session view exposes no `cols`/`rows`
fields at all, so the new dimensions are not visible in GET
/connections. -/
theorem c6_resize_then_snapshot (t : Int) (eng : Engine) (c : Conn) (cols rows : Int) :
    (applyResize t eng c cols rows).2.1.cols = cols
    ∧ (applyResize t eng c cols rows).2.1.rows = rows
    ∧ jKeys (connViewJson ((applyResize t eng c cols rows).2.1))
        = ["id", "state", "createdAt", "lastActivityAt", "idleTimeoutMs", "attachedClients",
           "meta"]
    ∧ jLookup (connViewJson ((applyResize t eng c cols rows).2.1)) "cols" = none
    ∧ jLookup (connViewJson ((applyResize t eng c cols rows).2.1)) "rows" = none :=
  ⟨rfl, rfl, rfl, rfl, rfl⟩

/-- C6 counterexample: after a successful resize of the ready session to
200x50, the snapshot view for it answers nothing for `cols` — not
`cols = 200` as the claim requires — even though the record stores 200. -/
theorem c6_cex_snapshot_lacks_dims :
    jLookup (connViewJson ((applyResize 0 engW cReady 200 50).2.1)) "cols" = none
    ∧ (applyResize 0 engW cReady 200 50).2.1.cols = 200 :=
  ⟨rfl, rfl⟩

/-- C2 (amended): when SSH transport establishment or the PTY shell open
fails during create, `createConnection` rejects with that error (which
the HTTP layer surfaces as 500 with `detail`), and the session stays in
the registry in state connecting — no transition to Error happens and
the session is not removed on these paths. -/
theorem c2_connect_failure_stays_connecting (cfg : Config) (eng : Engine) (id : String)
    (t : Int) (p : CreateParams) (m : String) (shellR : ShellOutcome)
    (hcap : ¬ eng.connections.length ≥ cfg.maxConnections) :
    ((createConnection cfg eng id t p (SshOutcome.err m) shellR).2.2 = Except.error m
      ∧ (createConnection cfg eng id t p (SshOutcome.err m) shellR).1.connections
          = eng.connections ++ [mkConn cfg id t p]
      ∧ (mkConn cfg id t p).state = ConnState.connecting)
    ∧ ((createConnection cfg eng id t p SshOutcome.ready (ShellOutcome.err m)).2.2
          = Except.error m
      ∧ (createConnection cfg eng id t p SshOutcome.ready (ShellOutcome.err m)).1.connections
          = eng.connections ++ [mkConn cfg id t p])
    ∧ (∀ h u pw : String, ¬(h = "" ∨ u = "" ∨ pw = "") →
        (handleCreate cfg eng id t
            { host := some h, port := p.port, username := some u, password := some pw,
              cols := p.cols, rows := p.rows, idleTimeoutMs := p.idleTimeoutMs }
            (SshOutcome.err m) shellR).2.2.status = 500) := by
  refine ⟨⟨?_, ?_, rfl⟩, ⟨?_, ?_⟩, ?_⟩
  · simp [createConnection, hcap]
  · simp [createConnection, hcap, bumpAndNotify]
  · simp [createConnection, hcap]
  · simp [createConnection, hcap, bumpAndNotify]
  · intro h u pw hne
    simp [handleCreate, hne, createConnection, hcap]

/-- C2 counterexample: with an empty registry, a create whose SSH
connect fails with "auth" leaves exactly one session registered, still
in state connecting (not error, not removed), while the operation
rejects with "auth". -/
theorem c2_cex_ssh_failure :
    ((createConnection cfgW eng0 "a" 0 pW (SshOutcome.err "auth")
        ShellOutcome.opened).1.connections.map (fun c => stateToString c.state)
      = ["connecting"])
    ∧ (createConnection cfgW eng0 "a" 0 pW (SshOutcome.err "auth") ShellOutcome.opened).2.2
        = Except.error "auth" :=
  ⟨rfl, rfl⟩

/-- C5 (amended): a create arriving at capacity fails with the thrown
error "MAX_CONNECTIONS exceeded", and the HTTP layer surfaces it through
the generic catch-all as status 500 with the message in `detail` — not
as 503; no CapacityExceeded-to-503 mapping exists in the server. -/
theorem c5_capacity_surfaces_500 (cfg : Config) (eng : Engine) (id : String) (t : Int)
    (body : CreateBody) (sshR : SshOutcome) (shellR : ShellOutcome)
    (hcap : eng.connections.length ≥ cfg.maxConnections)
    (h u pw : String) (hh : body.host = some h) (hu : body.username = some u)
    (hpw : body.password = some pw) (hne : ¬(h = "" ∨ u = "" ∨ pw = "")) :
    (∀ p : CreateParams, createConnection cfg eng id t p sshR shellR
        = (eng, [], Except.error "MAX_CONNECTIONS exceeded"))
    ∧ (handleCreate cfg eng id t body sshR shellR).2.2
        = { status := 500,
            body := JVal.jobj [("error", JVal.jstr "Internal Server Error"),
                               ("detail", JVal.jstr "MAX_CONNECTIONS exceeded")] } := by
  constructor
  · intro p
    simp [createConnection, hcap]
  · simp [handleCreate, hh, hu, hpw, hne, createConnection, hcap]

/-- C5 witness: with capacity 1 already filled, a well-formed create
request is answered with 500. -/
theorem c5_witness :
    (handleCreate cfgW1 engW "x" 0 bodyW SshOutcome.ready ShellOutcome.opened).2.2.status
      = 500 := by
  have h := c5_capacity_surfaces_500 cfgW1 engW "x" 0 bodyW SshOutcome.ready
    ShellOutcome.opened (by decide) "h" "u" "p" rfl rfl rfl (by decide)
  rw [h.2]

/-- C5 counterexample: the capacity-exceeded response status is 500, not
the 503 the claim requires. -/
theorem c5_cex_status_not_503 :
    (handleCreate cfgW1 engW "x" 0 bodyW SshOutcome.ready ShellOutcome.opened).2.2.status
        ≠ 503
    ∧ (handleCreate cfgW1 engW "x" 0 bodyW SshOutcome.ready ShellOutcome.opened).2.2.status
        = 500 :=
  ⟨by decide, rfl⟩

/-- C4 (amended): the HTTP resize endpoint answers 404 with no effect
exactly when the id is unknown or the session has no shell handle (which
covers every session that never left Connecting); but the state itself is
never consulted: any registered session whose shell handle is set —
including one that entered Closed or Error through a transport or shell
event — still gets a full resize: dimensions updated, PTY window-change
issued, resize notification published, 200 returned. -/
theorem c4_resize_gate_is_shell_not_state (eng : Engine) (t : Int) (id : String)
    (cols rows : Option Int) :
    (lookupConn eng id = none →
      handleResizeHttp eng t id cols rows
        = (eng, [], { status := 404, body := JVal.jobj [("error", JVal.jstr "Not Found")] }))
    ∧ (∀ c, lookupConn eng id = some c → c.hasShell = false →
        handleResizeHttp eng t id cols rows
          = (eng, [], { status := 404, body := JVal.jobj [("error", JVal.jstr "Not Found")] }))
    ∧ (∀ c cl rw, lookupConn eng id = some c → c.hasShell = true →
        (handleResizeHttp eng t id (some cl) (some rw)).2.2.status = 200
        ∧ (handleResizeHttp eng t id (some cl) (some rw)).2.1 = (applyResize t eng c cl rw).2.2
        ∧ (applyResize t eng c cl rw).2.1.cols = cl
        ∧ (applyResize t eng c cl rw).2.1.rows = rw
        ∧ Effect.setWindow rw cl ∈ (applyResize t eng c cl rw).2.2
        ∧ ((applyResize t eng c cl rw).2.2.countP Effect.isNotify) = 1) := by
  refine ⟨?_, ?_, ?_⟩
  · intro hnone
    simp [handleResizeHttp, hnone]
  · intro c hc hsh
    simp [handleResizeHttp, hc, hsh]
  · intro c cl rw hc hsh
    refine ⟨?_, ?_, rfl, rfl, ?_, ?_⟩
    · simp [handleResizeHttp, hc, hsh]
    · simp [handleResizeHttp, hc, hsh]
    · simp [applyResize, hsh, bumpAndNotify]
    · simp [applyResize, hsh, bumpAndNotify, List.countP_cons, Effect.isNotify]

/-- C4 witness: a ready session with a shell accepts the resize with
200. -/
theorem c4_witness :
    (handleResizeHttp engW 20 "a" (some 200) (some 50)).2.2.status = 200 :=
  ((c4_resize_gate_is_shell_not_state engW 20 "a" (some 200) (some 50)).2.2 cReady 200 50
    rfl rfl).1

/-- C4 counterexample: after the shell-close event the session is in
terminal state closed yet still registered with its shell handle set, and
the resize endpoint accepts a resize with 200 and updates the dimensions
— refuting the claim that outside Ready a resize is a 404 no-op. -/
theorem c4_cex_resize_on_closed :
    ((lookupConn (onShellClose 10 engW cReady).1 "a").map (fun c => c.state)
        = some ConnState.closed)
    ∧ (handleResizeHttp (onShellClose 10 engW cReady).1 20 "a" (some 200)
        (some 50)).2.2.status = 200
    ∧ ((handleResizeHttp (onShellClose 10 engW cReady).1 20 "a" (some 200)
        (some 50)).1.connections.map (fun c => (c.cols, c.rows)) = [(200, 50)]) :=
  ⟨rfl, rfl, rfl⟩

/-- C7 (amended): `lastActivityAt` is refreshed by inbound shell bytes,
by every inbound peer frame (hence by a resize sent as a WebSocket
control frame), and by peer attach; but `applyResize` itself does not
touch it, so a resize performed through the HTTP admin endpoint leaves
every session's `lastActivityAt` unchanged. -/
theorem c7_activity_triggers (t : Int) (eng : Engine) (c : Conn) (w : Peer) (ro : Bool)
    (f : PeerFrame) (chunk : String) (cols rows : Int) (id : String) :
    (onShellData t eng c chunk).2.1.lastActivityAt = t
    ∧ (onPeerMessage t eng c w ro f).2.1.lastActivityAt = t
    ∧ (c.state = ConnState.ready → c.hasShell = true →
        (attachWebSocket t eng c w).2.1.lastActivityAt = t)
    ∧ (applyResize t eng c cols rows).2.1.lastActivityAt = c.lastActivityAt
    ∧ ((eng.connections.map (fun x => x.id)).Nodup →
        (handleResizeHttp eng t id (some cols) (some rows)).1.connections.map
            (fun x => x.lastActivityAt)
          = eng.connections.map (fun x => x.lastActivityAt)) := by
  refine ⟨rfl, ?_, ?_, rfl, ?_⟩
  · cases ro with
    | true => rfl
    | false =>
      match f with
      | PeerFrame.ctrl (CtrlMsg.resize none none) => rfl
      | PeerFrame.ctrl (CtrlMsg.resize none (some r)) => rfl
      | PeerFrame.ctrl (CtrlMsg.resize (some cl) none) => rfl
      | PeerFrame.ctrl (CtrlMsg.resize (some cl) (some r)) => rfl
      | PeerFrame.ctrl (CtrlMsg.stdin d) => rfl
      | PeerFrame.ctrl CtrlMsg.ping => rfl
      | PeerFrame.ctrl CtrlMsg.detach => rfl
      | PeerFrame.raw d => rfl
  · intro hst hsh
    simp [attachWebSocket, hst, hsh, bumpAndNotify, touch]
  · intro hnodup
    match hc : lookupConn eng id with
    | none => simp [handleResizeHttp, hc]
    | some c0 =>
      by_cases hsh : c0.hasShell
      · have hmem : c0 ∈ eng.connections := List.mem_of_find?_eq_some hc
        simp [handleResizeHttp, hc, hsh, applyResize, bumpAndNotify, updateConn, List.map_map]
        intro x hx
        by_cases hxid : x.id = c0.id
        · have hxc : x = c0 := by
            have hinj := List.inj_on_of_nodup_map hnodup
            exact hinj hx hmem hxid
          simp [hxid, hxc]
        · simp [hxid]
      · simp [handleResizeHttp, hc, Bool.eq_false_iff.mpr hsh]

/-- C7 witness: attach at time 7 refreshes activity to 7, while an HTTP
resize at time 9 leaves the stored activity timestamp 5 unchanged. -/
theorem c7_witness :
    (attachWebSocket 7 engW cReady pOpen).2.1.lastActivityAt = 7
    ∧ (handleResizeHttp engW 9 "a" (some 80) (some 24)).1.connections.map
        (fun x => x.lastActivityAt) = [5] := by
  constructor
  · exact (c7_activity_triggers 7 engW cReady pOpen true (PeerFrame.ctrl CtrlMsg.ping)
      "" 80 24 "a").2.2.1 rfl rfl
  · have h := (c7_activity_triggers 9 engW cReady pOpen true (PeerFrame.ctrl CtrlMsg.ping)
      "" 80 24 "a").2.2.2.2 (by decide)
    exact h.trans rfl

/-- C2 witness: a create over an empty registry whose SSH connect fails
with "auth" is surfaced by the HTTP layer as 500. -/
theorem c2_witness :
    (handleCreate cfgW eng0 "a" 0 bodyW (SshOutcome.err "auth")
        ShellOutcome.opened).2.2.status = 500 :=
  (c2_connect_failure_stays_connecting cfgW eng0 "a" 0 pW "auth" ShellOutcome.opened
    (by decide)).2.2 "h" "u" "p" (by decide)

/-- C7 counterexample: an HTTP resize at time 9 succeeds with 200 yet
leaves `lastActivityAt` at its old value 5 — refuting the claim that a
resize through the HTTP admin endpoint updates `lastActivityAt`. -/
theorem c7_cex_http_resize_no_touch :
    (handleResizeHttp engW 9 "a" (some 80) (some 24)).2.2.status = 200
    ∧ (handleResizeHttp engW 9 "a" (some 80) (some 24)).1.connections.map
        (fun x => x.lastActivityAt) = [5]
    ∧ (5 : Int) ≠ 9 :=
  ⟨rfl, rfl, by decide⟩

/-- C1 (amended): only the `terminateConnection` path (delete and idle
sweep) performs the full terminal teardown — close every peer with 1001,
empty the peer set, close the shell handle, end the SSH transport,
remove the session from the registry, publish exactly one notification.
The transport/shell event handlers (SSH close, shell close, shell error)
also close every peer (with 1011), empty the peer set and publish exactly
one notification, but they leave the session in the registry and emit
neither a shell close nor an SSH end. -/
theorem c1_terminal_teardown (t : Int) (eng : Engine) (c : Conn) (why : String)
    (r : NotifyReason) :
    ((terminateConnection t eng c why r).2.1.state = ConnState.closed
      ∧ (terminateConnection t eng c why r).2.1.clients = []
      ∧ (∀ w ∈ c.clients,
          Effect.wsClose w.pid 1001 why ∈ (terminateConnection t eng c why r).2.2)
      ∧ (c.hasShell = true → Effect.shellClose ∈ (terminateConnection t eng c why r).2.2)
      ∧ Effect.sshEnd ∈ (terminateConnection t eng c why r).2.2
      ∧ (terminateConnection t eng c why r).1.connections
          = eng.connections.filter (fun x => x.id ≠ c.id)
      ∧ ((terminateConnection t eng c why r).2.2.countP Effect.isNotify) = 1
      ∧ (∃ s, Effect.notify s ∈ (terminateConnection t eng c why r).2.2
          ∧ s.reason = r ∧ s.changedIds = [c.id]))
    ∧ (∀ st why2,
        (onTransportEvent t eng c st why2).2.1.state = st
        ∧ (onTransportEvent t eng c st why2).2.1.clients = []
        ∧ (∀ w ∈ c.clients,
            Effect.wsClose w.pid 1011 why2 ∈ (onTransportEvent t eng c st why2).2.2)
        ∧ ((onTransportEvent t eng c st why2).2.2.countP Effect.isNotify) = 1
        ∧ (onTransportEvent t eng c st why2).1.connections.map (fun x => x.id)
            = eng.connections.map (fun x => x.id)
        ∧ Effect.sshEnd ∉ (onTransportEvent t eng c st why2).2.2
        ∧ Effect.shellClose ∉ (onTransportEvent t eng c st why2).2.2)
    ∧ onSshClose t eng c = onTransportEvent t eng c ConnState.closed "SSH closed"
    ∧ onShellClose t eng c = onTransportEvent t eng c ConnState.closed "Shell closed"
    ∧ onShellError t eng c = onTransportEvent t eng c ConnState.error "Shell error" := by
  obtain ⟨s, hsr, hsc, hfx⟩ := terminate_fx_eq t eng c why r
  refine ⟨⟨rfl, rfl, ?_, ?_, ?_, terminate_conns t eng c why r, ?_, ⟨s, ?_, hsr, hsc⟩⟩,
    ?_, rfl, rfl, rfl⟩
  · intro w hw
    rw [hfx]
    exact List.mem_append_left _ (List.mem_append_left _ (List.mem_map_of_mem _ hw))
  · intro hsh
    rw [hfx]
    exact List.mem_append_left _ (List.mem_append_right _ (by simp [hsh]))
  · rw [hfx]
    exact List.mem_append_right _ (by simp)
  · rw [hfx]
    rcases c.hasShell with _ | _ <;>
      simp [List.countP_append, List.countP_map, List.countP_cons, Effect.isNotify,
        List.countP_eq_zero]
  · rw [hfx]
    exact List.mem_append_right _ (by simp)
  · intro st why2
    refine ⟨rfl, rfl, ?_, ?_, ?_, ?_, ?_⟩
    · intro w hw
      exact List.mem_append_left _ (List.mem_map_of_mem _ hw)
    · simp [onTransportEvent, bumpAndNotify, List.countP_append, List.countP_map,
        List.countP_cons, Effect.isNotify, List.countP_eq_zero]
    · exact map_update_ids eng.connections _
    · simp only [onTransportEvent, bumpAndNotify, List.mem_append]
      rintro (h | h)
      · obtain ⟨w, -, hw⟩ := List.mem_map.mp h
        exact Effect.noConfusion hw
      · simp at h
    · simp only [onTransportEvent, bumpAndNotify, List.mem_append]
      rintro (h | h)
      · obtain ⟨w, -, hw⟩ := List.mem_map.mp h
        exact Effect.noConfusion hw
      · simp at h

/-- C1 witness: deleting the ready session closes its peer with 1001,
ends SSH and empties the registry. -/
theorem c1_witness :
    Effect.sshEnd ∈ (terminateConnection 3 engW cReady "Deleted" NotifyReason.deleted).2.2
    ∧ (terminateConnection 3 engW cReady "Deleted" NotifyReason.deleted).1.connections
        = [] := by
  have h := c1_terminal_teardown 3 engW cReady "Deleted" NotifyReason.deleted
  obtain ⟨⟨-, -, -, -, hssh, hconns, -, -⟩, -, -, -, -⟩ := h
  refine ⟨hssh, ?_⟩
  rw [hconns]
  rfl

/-- C1 counterexample: the shell-close event handler moves the session to
terminal state closed, yet the session is still present in the registry
afterwards and no SSH-end effect is emitted — refuting the claim that
every terminal transition removes the session from the registry and ends
the SSH transport. -/
theorem c1_cex_shell_close_keeps_registry :
    ((onShellClose 10 engW cReady).1.connections.map (fun c => c.id) = ["a"])
    ∧ (onShellClose 10 engW cReady).2.1.state = ConnState.closed
    ∧ Effect.sshEnd ∉ (onShellClose 10 engW cReady).2.2 := by
  refine ⟨rfl, rfl, ?_⟩
  intro h
  simp [onShellClose, onTransportEvent, bumpAndNotify, cReady, engW, pOpen] at h

/-- Unfolding of the sweeper loop body. -/
theorem sweepStep_eq (t : Int) (acc : Engine × List Effect) (c : Conn) :
    sweepStep t acc c
      = if reapable t c then
          ((terminateConnection t acc.1 c (idleWhy c) NotifyReason.idleTimeout).1,
           acc.2 ++ (terminateConnection t acc.1 c (idleWhy c) NotifyReason.idleTimeout).2.2)
        else acc := by
  rcases hT : terminateConnection t acc.1 c (idleWhy c) NotifyReason.idleTimeout
    with ⟨e2, c2, fx⟩
  by_cases h : reapable t c <;> simp [sweepStep, h, hT]

/-- The registry left by a sweeper fold: exactly the sessions whose id
was not reaped. -/
theorem sweep_aux_conns (t : Int) : ∀ (l : List Conn) (e : Engine) (fx : List Effect),
    (l.foldl (sweepStep t) (e, fx)).1.connections
      = e.connections.filter (fun x => x.id ∉ reapedIds t l) := by
  intro l
  induction l with
  | nil =>
    intro e fx
    simp [reapedIds]
  | cons a l ih =>
    intro e fx
    by_cases h : reapable t a
    · simp only [List.foldl_cons, sweepStep_eq, if_pos h]
      rw [ih, terminate_conns, List.filter_filter]
      have hrl : reapedIds t (a :: l) = a.id :: reapedIds t l := by
        simp [reapedIds, h]
      rw [hrl]
      apply List.filter_congr
      intro x hx
      by_cases h1 : x.id ∈ reapedIds t l <;> by_cases h2 : x.id = a.id <;>
        simp [h1, h2]
    · simp only [List.foldl_cons, sweepStep_eq, if_neg h]
      rw [ih]
      have hrl : reapedIds t (a :: l) = reapedIds t l := by
        simp [reapedIds, h]
      rw [hrl]

/-- Effects only accumulate along a sweeper fold. -/
theorem sweep_fx_prefix (t : Int) : ∀ (l : List Conn) (e : Engine) (fx : List Effect),
    ∃ tl, (l.foldl (sweepStep t) (e, fx)).2 = fx ++ tl := by
  intro l
  induction l with
  | nil =>
    intro e fx
    exact ⟨[], by simp⟩
  | cons a l ih =>
    intro e fx
    by_cases h : reapable t a
    · simp only [List.foldl_cons, sweepStep_eq, if_pos h]
      obtain ⟨tl, htl⟩ :=
        ih (terminateConnection t e a (idleWhy a) NotifyReason.idleTimeout).1
          (fx ++ (terminateConnection t e a (idleWhy a) NotifyReason.idleTimeout).2.2)
      exact ⟨_, by rw [htl, List.append_assoc]⟩
    · simp only [List.foldl_cons, sweepStep_eq, if_neg h]
      exact ih e fx

/-- Every session reaped along a sweeper fold gets its idle-timeout
notification. -/
theorem sweep_notify_mem (t : Int) : ∀ (l : List Conn) (e : Engine) (fx : List Effect)
    (c : Conn), c ∈ l → reapable t c = true →
    ∃ s, Effect.notify s ∈ (l.foldl (sweepStep t) (e, fx)).2
      ∧ s.reason = NotifyReason.idleTimeout ∧ s.changedIds = [c.id] := by
  intro l
  induction l with
  | nil =>
    intro e fx c hc
    exact absurd hc (List.not_mem_nil c)
  | cons a l ih =>
    intro e fx c hc hr
    rcases List.mem_cons.mp hc with rfl | hmem
    · simp only [List.foldl_cons, sweepStep_eq, if_pos hr]
      obtain ⟨s, hsr, hsc, hfx⟩ :=
        terminate_fx_eq t e c (idleWhy c) NotifyReason.idleTimeout
      obtain ⟨tl, htl⟩ :=
        sweep_fx_prefix t l (terminateConnection t e c (idleWhy c) NotifyReason.idleTimeout).1
          (fx ++ (terminateConnection t e c (idleWhy c) NotifyReason.idleTimeout).2.2)
      refine ⟨s, ?_, hsr, hsc⟩
      rw [htl]
      apply List.mem_append_left
      rw [hfx]
      exact List.mem_append_right _ (by simp)
    · by_cases ha : reapable t a
      · simp only [List.foldl_cons, sweepStep_eq, if_pos ha]
        exact ih _ _ c hmem hr
      · simp only [List.foldl_cons, sweepStep_eq, if_neg ha]
        exact ih e fx c hmem hr

/-- With unique ids, the sweeper keeps precisely the non-reapable
sessions, each unchanged. -/
theorem sweep_conns (t : Int) (eng : Engine)
    (h : (eng.connections.map (fun c => c.id)).Nodup) :
    (sweep t eng).1.connections = eng.connections.filter (fun c => !(reapable t c)) := by
  rw [sweep, sweep_aux_conns]
  apply List.filter_congr
  intro x hx
  by_cases hr : reapable t x
  · have hmem : x.id ∈ reapedIds t eng.connections :=
      List.mem_map.mpr ⟨x, List.mem_filter.mpr ⟨hx, hr⟩, rfl⟩
    simp [hmem, hr]
  · have hmem : x.id ∉ reapedIds t eng.connections := by
      intro hmem
      obtain ⟨y, hy, hyx⟩ := List.mem_map.mp hmem
      have hy1 : y ∈ eng.connections := (List.mem_filter.mp hy).1
      have hy2 : reapable t y = true := (List.mem_filter.mp hy).2
      have hxy : y = x := List.inj_on_of_nodup_map h hy1 hx hyx
      exact hr (hxy ▸ hy2)
    simp [hmem, hr]

/-- C8: on a sweeper tick over a registry with unique ids, a session is
terminated if and only if it has no OPEN peer transport and its idle age
strictly exceeds its idle budget (the survivors are exactly, and
unchanged, the sessions failing that condition), and every terminated
session gets a notification with reason idle-timeout naming its id. -/
theorem c8_idle_sweep (t : Int) (eng : Engine)
    (h : (eng.connections.map (fun c => c.id)).Nodup) :
    (sweep t eng).1.connections = eng.connections.filter (fun c => !(reapable t c))
    ∧ ∀ c ∈ eng.connections, reapable t c = true →
        ∃ s, Effect.notify s ∈ (sweep t eng).2
          ∧ s.reason = NotifyReason.idleTimeout ∧ s.changedIds = [c.id] := by
  refine ⟨sweep_conns t eng h, ?_⟩
  intro c hc hr
  exact sweep_notify_mem t eng.connections eng [] c hc hr

/-- C8 witness: sweeping the two-session engine at time 1000 reaps the
idle session and keeps the active one untouched. -/
theorem c8_witness :
    (sweep 1000 engS).1.connections = [cReady] :=
  ((c8_idle_sweep 1000 engS (by decide)).1).trans (by decide)

end WsSshProxy
